/-
Verification of `create_coreml_models.py` (LifeLens-ios).

The script builds seven small Keras network architectures, compiles each,
converts each to a Core ML model, attaches metadata, and saves each model
to a file under the `CoreMLModels` directory.  We embed the script shallowly:

* the Keras / coremltools objects become explicit Lean structures
  (`KerasModel`, `MLModel`, `ConvertCfg`, `TensorType`);
* every external library call (building a `Sequential` model, `compile`,
  `ct.convert`, `coreml_model.save`, `os.makedirs`) is an effectful step in a
  state monad `M` over a `World` carrying the filesystem and an event trace;
  whether a given external call succeeds or raises is decided by an `Oracle`,
  and a failing call produces an `Err` value that the monad propagates
  (the script contains no exception handler);
* the `__main__` driver is a statement list `mainProg` executed by a small
  statement interpreter `exec` (the statement language has `ifElse` and
  `whileTrue` constructors precisely so that the absence of branching and
  looping in the driver is a provable fact, not a vacuity).
-/
import Mathlib

namespace LifeLensCoreML

/-! ## Data model: layers, Keras models, Core ML models -/

/-- A Keras layer, as used by the seven architectures in the script. -/
inductive Layer
  | input (shape : List Nat) (name : String)
  | reshape (targetShape : List Nat)
  | conv1D (filters kernelSize : Nat) (activation : String) (samePadding : Bool)
  | maxPooling1D (poolSize : Nat)
  | globalMaxPooling1D
  | dense (units : Nat) (activation : String) (name : Option String)
  | dropout (rateNum rateDen : Nat)
  | batchNormalization
  | lstm (units : Nat) (returnSequences : Bool)
  | flatten
  deriving DecidableEq, Repr

/-- A `keras.Sequential` model: its layers, and the `(optimizer, loss)` pair
once `model.compile` has been called. -/
structure KerasModel where
  layers : List Layer
  compiled : Option (String × String) := none
  deriving DecidableEq, Repr

/-- A `ct.TensorType` argument (inputs carry a shape, outputs only a name). -/
structure TensorType where
  shape : Option (List Nat) := none
  name : String
  deriving DecidableEq, Repr

/-- Deployment targets, the `ct.target.*` values. -/
inductive DeploymentTarget
  | iOS15 | iOS16 | iOS17
  deriving DecidableEq, Repr

/-- Compute units, the `ct.ComputeUnit.*` values. -/
inductive ComputeUnit
  | ALL | CPU_ONLY | CPU_AND_GPU
  deriving DecidableEq, Repr

/-- The keyword arguments of a `ct.convert` call in the script. -/
structure ConvertCfg where
  inputs : List TensorType
  outputs : List TensorType
  minimum_deployment_target : DeploymentTarget
  compute_units : ComputeUnit
  deriving DecidableEq, Repr

/-- A converted Core ML model: the source Keras model, the conversion
configuration, and the metadata fields the script assigns before saving. -/
structure MLModel where
  source : KerasModel
  cfg : ConvertCfg
  author : Option String := none
  short_description : Option String := none
  version : Option String := none
  deriving DecidableEq, Repr

/-! ## Effects: events, errors, the world and the monad -/

/-- One observable external action of the script. -/
inductive Event
  | build (layers : List Layer)
  | compile (m : KerasModel) (optimizer loss : String)
  | convert (m : KerasModel) (cfg : ConvertCfg)
  | save (m : MLModel) (path : String)
  | print (s : String)
  | makedirs (path : String) (exist_ok : Bool)
  deriving DecidableEq, Repr

/-- A Python exception escaping the script: a failing external call, a
`FileExistsError` from `os.makedirs`, or interpreter fuel exhaustion
(which only a `while` loop could cause). -/
inductive Err
  | extFail (e : Event)
  | fileExists (path : String)
  | outOfFuel
  deriving DecidableEq, Repr

/-- The observable state: paths present on disk, and the trace of events. -/
structure World where
  fs : List String
  trace : List Event
  deriving DecidableEq, Repr

/-- Decides which external library calls succeed in a given run. -/
def Oracle : Type := Event → Bool

/-- The oracle of a fully successful run. -/
def okOracle : Oracle := fun _ => true

/-- The oracle of a run in which exactly the call `e` raises. -/
def failOnly (e : Event) : Oracle := fun x => if x = e then false else true

/-- State-and-exception monad: the world survives an exception (side effects
performed before the raise remain observable). -/
def M (α : Type) : Type := World → Except Err α × World

def M.pure {α : Type} (a : α) : M α := fun w => (Except.ok a, w)

def M.bind {α β : Type} (x : M α) (f : α → M β) : M β := fun w =>
  match x w with
  | (Except.ok a, w') => f a w'
  | (Except.error ε, w') => (Except.error ε, w')

/-- Append an event to the trace. -/
def World.record (w : World) (e : Event) : World :=
  { w with trace := w.trace ++ [e] }

/-! ## Primitive external calls -/

/-- The call `keras.Sequential([...])`. -/
def kerasSequential (ω : Oracle) (layers : List Layer) : M KerasModel := fun w =>
  let e := Event.build layers
  if ω e then (Except.ok { layers := layers, compiled := none }, w.record e)
  else (Except.error (Err.extFail e), w)

/-- The call `model.compile(optimizer=..., loss=...)`. -/
def modelCompile (ω : Oracle) (m : KerasModel) (optimizer loss : String) :
    M KerasModel := fun w =>
  let e := Event.compile m optimizer loss
  if ω e then (Except.ok { m with compiled := some (optimizer, loss) }, w.record e)
  else (Except.error (Err.extFail e), w)

/-- The call `ct.convert(model, inputs=..., outputs=...,
minimum_deployment_target=..., compute_units=...)`. -/
def ctConvert (ω : Oracle) (m : KerasModel) (cfg : ConvertCfg) : M MLModel := fun w =>
  let e := Event.convert m cfg
  if ω e then (Except.ok { source := m, cfg := cfg }, w.record e)
  else (Except.error (Err.extFail e), w)

/-- The call `coreml_model.save(path)`: records the save and puts the path on disk. -/
def mlmodelSave (ω : Oracle) (m : MLModel) (path : String) : M Unit := fun w =>
  let e := Event.save m path
  if ω e then (Except.ok (), { fs := w.fs ++ [path], trace := w.trace ++ [e] })
  else (Except.error (Err.extFail e), w)

/-- The call `print(s)`. -/
def pyPrint (s : String) : M Unit := fun w =>
  (Except.ok (), w.record (Event.print s))

/-- The call `os.makedirs(path, exist_ok=...)`. -/
def osMakedirs (ω : Oracle) (path : String) (exist_ok : Bool) : M Unit := fun w =>
  let e := Event.makedirs path exist_ok
  if ω e then
    if path ∈ w.fs then
      if exist_ok then (Except.ok (), w.record e)
      else (Except.error (Err.fileExists path), w.record e)
    else (Except.ok (), { fs := w.fs ++ [path], trace := w.trace ++ [e] })
  else (Except.error (Err.extFail e), w)

/-! ## The seven model-construction functions (transcribed from the script) -/

/-- Layer stack of `create_arrhythmia_detection_model`. -/
def arrhythmiaLayers : List Layer :=
  [ Layer.input [1000] "ecg_signal",
    Layer.reshape [1000, 1],
    Layer.conv1D 64 5 "relu" true,
    Layer.maxPooling1D 2,
    Layer.conv1D 128 5 "relu" true,
    Layer.maxPooling1D 2,
    Layer.conv1D 256 3 "relu" true,
    Layer.globalMaxPooling1D,
    Layer.dense 128 "relu" none,
    Layer.dropout 5 10,
    Layer.dense 64 "relu" none,
    Layer.dense 4 "softmax" (some "arrhythmia_class") ]

/-- Arguments of `ct.convert` in `create_arrhythmia_detection_model`. -/
def arrhythmiaCfg : ConvertCfg :=
  { inputs := [{ shape := some [1, 1000], name := "ecg_signal" }],
    outputs := [{ name := "arrhythmia_probability" }],
    minimum_deployment_target := DeploymentTarget.iOS15,
    compute_units := ComputeUnit.ALL }

/-- The function `create_arrhythmia_detection_model`. -/
def create_arrhythmia_detection_model (ω : Oracle) : M MLModel :=
  M.bind (kerasSequential ω arrhythmiaLayers) fun model =>
  M.bind (modelCompile ω model "adam" "categorical_crossentropy") fun model =>
  M.bind (ctConvert ω model arrhythmiaCfg) fun coreml =>
  let coreml := { coreml with author := some "LifeLens Medical AI" }
  let coreml := { coreml with
    short_description := some "ECG Arrhythmia Detection (AFib, VTach, PVCs)" }
  let coreml := { coreml with version := some "1.0.0" }
  M.bind (mlmodelSave ω coreml "CoreMLModels/ECG_Arrhythmia.mlmodel") fun _ =>
  M.bind (pyPrint "✅ Created ECG_Arrhythmia.mlmodel") fun _ =>
  M.pure coreml

/-- Layer stack of `create_troponin_detection_model`. -/
def troponinLayers : List Layer :=
  [ Layer.input [50] "sensor_features",
    Layer.dense 256 "relu" none,
    Layer.batchNormalization,
    Layer.dense 128 "relu" none,
    Layer.dropout 4 10,
    Layer.dense 64 "relu" none,
    Layer.dense 32 "relu" none,
    Layer.dense 1 "linear" (some "troponin_level") ]

/-- Arguments of `ct.convert` in `create_troponin_detection_model`. -/
def troponinCfg : ConvertCfg :=
  { inputs := [{ shape := some [1, 50], name := "sensor_features" }],
    outputs := [{ name := "troponin_ng_per_L" }],
    minimum_deployment_target := DeploymentTarget.iOS15,
    compute_units := ComputeUnit.ALL }

/-- The function `create_troponin_detection_model`. -/
def create_troponin_detection_model (ω : Oracle) : M MLModel :=
  M.bind (kerasSequential ω troponinLayers) fun model =>
  M.bind (modelCompile ω model "adam" "mse") fun model =>
  M.bind (ctConvert ω model troponinCfg) fun coreml =>
  let coreml := { coreml with author := some "LifeLens Medical AI" }
  let coreml := { coreml with
    short_description := some "Troponin Level Detection (38ng/L sensitivity)" }
  let coreml := { coreml with version := some "1.0.0" }
  M.bind (mlmodelSave ω coreml "CoreMLModels/Troponin_Detection.mlmodel") fun _ =>
  M.bind (pyPrint "✅ Created Troponin_Detection.mlmodel") fun _ =>
  M.pure coreml

/-- Layer stack of `create_bp_estimation_model`. -/
def bpLayers : List Layer :=
  [ Layer.input [200] "ppg_ptt_signal",
    Layer.reshape [200, 1],
    Layer.lstm 64 true,
    Layer.lstm 32 false,
    Layer.dense 64 "relu" none,
    Layer.dense 32 "relu" none,
    Layer.dense 2 "linear" (some "bp_values") ]

/-- Arguments of `ct.convert` in `create_bp_estimation_model`. -/
def bpCfg : ConvertCfg :=
  { inputs := [{ shape := some [1, 200], name := "ppg_ptt_signal" }],
    outputs := [{ name := "blood_pressure" }],
    minimum_deployment_target := DeploymentTarget.iOS15,
    compute_units := ComputeUnit.ALL }

/-- The function `create_bp_estimation_model`. -/
def create_bp_estimation_model (ω : Oracle) : M MLModel :=
  M.bind (kerasSequential ω bpLayers) fun model =>
  M.bind (modelCompile ω model "adam" "mse") fun model =>
  M.bind (ctConvert ω model bpCfg) fun coreml =>
  let coreml := { coreml with author := some "LifeLens Medical AI" }
  let coreml := { coreml with
    short_description := some "Blood Pressure Estimation (±5 mmHg accuracy)" }
  let coreml := { coreml with version := some "1.0.0" }
  M.bind (mlmodelSave ω coreml "CoreMLModels/BP_Estimation.mlmodel") fun _ =>
  M.bind (pyPrint "✅ Created BP_Estimation.mlmodel") fun _ =>
  M.pure coreml

/-- Layer stack of `create_fall_detection_model`. -/
def fallLayers : List Layer :=
  [ Layer.input [100, 6] "imu_data",
    Layer.conv1D 32 3 "relu" false,
    Layer.maxPooling1D 2,
    Layer.conv1D 64 3 "relu" false,
    Layer.globalMaxPooling1D,
    Layer.dense 32 "relu" none,
    Layer.dense 2 "softmax" (some "fall_detection") ]

/-- Arguments of `ct.convert` in `create_fall_detection_model`. -/
def fallCfg : ConvertCfg :=
  { inputs := [{ shape := some [1, 100, 6], name := "imu_data" }],
    outputs := [{ name := "fall_probability" }],
    minimum_deployment_target := DeploymentTarget.iOS15,
    compute_units := ComputeUnit.ALL }

/-- The function `create_fall_detection_model`. -/
def create_fall_detection_model (ω : Oracle) : M MLModel :=
  M.bind (kerasSequential ω fallLayers) fun model =>
  M.bind (modelCompile ω model "adam" "categorical_crossentropy") fun model =>
  M.bind (ctConvert ω model fallCfg) fun coreml =>
  let coreml := { coreml with author := some "LifeLens Medical AI" }
  let coreml := { coreml with
    short_description := some "Emergency Fall Detection" }
  let coreml := { coreml with version := some "1.0.0" }
  M.bind (mlmodelSave ω coreml "CoreMLModels/Fall_Detection.mlmodel") fun _ =>
  M.bind (pyPrint "✅ Created Fall_Detection.mlmodel") fun _ =>
  M.pure coreml

/-- Layer stack of `create_activity_recognition_model`. -/
def activityLayers : List Layer :=
  [ Layer.input [150, 3] "activity_data",
    Layer.conv1D 32 5 "relu" false,
    Layer.maxPooling1D 2,
    Layer.conv1D 64 5 "relu" false,
    Layer.flatten,
    Layer.dense 64 "relu" none,
    Layer.dense 4 "softmax" (some "activity_class") ]

/-- Arguments of `ct.convert` in `create_activity_recognition_model`. -/
def activityCfg : ConvertCfg :=
  { inputs := [{ shape := some [1, 150, 3], name := "activity_data" }],
    outputs := [{ name := "activity_probability" }],
    minimum_deployment_target := DeploymentTarget.iOS15,
    compute_units := ComputeUnit.ALL }

/-- The function `create_activity_recognition_model`. -/
def create_activity_recognition_model (ω : Oracle) : M MLModel :=
  M.bind (kerasSequential ω activityLayers) fun model =>
  M.bind (modelCompile ω model "adam" "categorical_crossentropy") fun model =>
  M.bind (ctConvert ω model activityCfg) fun coreml =>
  let coreml := { coreml with author := some "LifeLens Medical AI" }
  let coreml := { coreml with
    short_description := some "Activity Recognition (Exercise/Sleep/Stress)" }
  let coreml := { coreml with version := some "1.0.0" }
  M.bind (mlmodelSave ω coreml "CoreMLModels/Activity_Recognition.mlmodel") fun _ =>
  M.bind (pyPrint "✅ Created Activity_Recognition.mlmodel") fun _ =>
  M.pure coreml

/-- Layer stack of `create_signal_quality_model`. -/
def signalQualityLayers : List Layer :=
  [ Layer.input [100] "signal_data",
    Layer.dense 64 "relu" none,
    Layer.dense 32 "relu" none,
    Layer.dense 16 "relu" none,
    Layer.dense 1 "sigmoid" (some "quality_score") ]

/-- Arguments of `ct.convert` in `create_signal_quality_model`. -/
def signalQualityCfg : ConvertCfg :=
  { inputs := [{ shape := some [1, 100], name := "signal_data" }],
    outputs := [{ name := "signal_quality" }],
    minimum_deployment_target := DeploymentTarget.iOS15,
    compute_units := ComputeUnit.ALL }

/-- The function `create_signal_quality_model`. -/
def create_signal_quality_model (ω : Oracle) : M MLModel :=
  M.bind (kerasSequential ω signalQualityLayers) fun model =>
  M.bind (modelCompile ω model "adam" "binary_crossentropy") fun model =>
  M.bind (ctConvert ω model signalQualityCfg) fun coreml =>
  let coreml := { coreml with author := some "LifeLens Medical AI" }
  let coreml := { coreml with
    short_description := some "Signal Quality Assessment" }
  let coreml := { coreml with version := some "1.0.0" }
  M.bind (mlmodelSave ω coreml "CoreMLModels/Signal_Quality.mlmodel") fun _ =>
  M.bind (pyPrint "✅ Created Signal_Quality.mlmodel") fun _ =>
  M.pure coreml

/-- Layer stack of `create_glucose_prediction_model`. -/
def glucoseLayers : List Layer :=
  [ Layer.input [60, 5] "glucose_history",
    Layer.lstm 64 true,
    Layer.lstm 32 false,
    Layer.dense 32 "relu" none,
    Layer.dense 6 "linear" (some "glucose_forecast") ]

/-- Arguments of `ct.convert` in `create_glucose_prediction_model`. -/
def glucoseCfg : ConvertCfg :=
  { inputs := [{ shape := some [1, 60, 5], name := "glucose_history" }],
    outputs := [{ name := "glucose_predictions" }],
    minimum_deployment_target := DeploymentTarget.iOS15,
    compute_units := ComputeUnit.ALL }

/-- The function `create_glucose_prediction_model`. -/
def create_glucose_prediction_model (ω : Oracle) : M MLModel :=
  M.bind (kerasSequential ω glucoseLayers) fun model =>
  M.bind (modelCompile ω model "adam" "mse") fun model =>
  M.bind (ctConvert ω model glucoseCfg) fun coreml =>
  let coreml := { coreml with author := some "LifeLens Medical AI" }
  let coreml := { coreml with
    short_description := some "Glucose Prediction (30-min forecast)" }
  let coreml := { coreml with version := some "1.0.0" }
  M.bind (mlmodelSave ω coreml "CoreMLModels/Glucose_Prediction.mlmodel") fun _ =>
  M.bind (pyPrint "✅ Created Glucose_Prediction.mlmodel") fun _ =>
  M.pure coreml

/-! ## The seven functions by name, and their per-function data -/

/-- Names of the seven model-construction functions. -/
inductive FnName
  | arrhythmia | troponin | bloodPressure | fallDetection
  | activityRecognition | signalQuality | glucose
  deriving DecidableEq, Repr

/-- Dispatch a function name to its model-construction function. -/
def runFn : FnName → Oracle → M MLModel
  | FnName.arrhythmia => create_arrhythmia_detection_model
  | FnName.troponin => create_troponin_detection_model
  | FnName.bloodPressure => create_bp_estimation_model
  | FnName.fallDetection => create_fall_detection_model
  | FnName.activityRecognition => create_activity_recognition_model
  | FnName.signalQuality => create_signal_quality_model
  | FnName.glucose => create_glucose_prediction_model

/-- Layer stack of each function. -/
def fnLayers : FnName → List Layer
  | FnName.arrhythmia => arrhythmiaLayers
  | FnName.troponin => troponinLayers
  | FnName.bloodPressure => bpLayers
  | FnName.fallDetection => fallLayers
  | FnName.activityRecognition => activityLayers
  | FnName.signalQuality => signalQualityLayers
  | FnName.glucose => glucoseLayers

/-- Loss function passed to `model.compile` by each function
(the optimizer is `adam` in all seven). -/
def fnLoss : FnName → String
  | FnName.arrhythmia => "categorical_crossentropy"
  | FnName.troponin => "mse"
  | FnName.bloodPressure => "mse"
  | FnName.fallDetection => "categorical_crossentropy"
  | FnName.activityRecognition => "categorical_crossentropy"
  | FnName.signalQuality => "binary_crossentropy"
  | FnName.glucose => "mse"

/-- The `ct.convert` configuration of each function. -/
def fnCfg : FnName → ConvertCfg
  | FnName.arrhythmia => arrhythmiaCfg
  | FnName.troponin => troponinCfg
  | FnName.bloodPressure => bpCfg
  | FnName.fallDetection => fallCfg
  | FnName.activityRecognition => activityCfg
  | FnName.signalQuality => signalQualityCfg
  | FnName.glucose => glucoseCfg

/-- The `short_description` metadata assigned by each function. -/
def fnDesc : FnName → String
  | FnName.arrhythmia => "ECG Arrhythmia Detection (AFib, VTach, PVCs)"
  | FnName.troponin => "Troponin Level Detection (38ng/L sensitivity)"
  | FnName.bloodPressure => "Blood Pressure Estimation (±5 mmHg accuracy)"
  | FnName.fallDetection => "Emergency Fall Detection"
  | FnName.activityRecognition => "Activity Recognition (Exercise/Sleep/Stress)"
  | FnName.signalQuality => "Signal Quality Assessment"
  | FnName.glucose => "Glucose Prediction (30-min forecast)"

/-- Output file path written by each function. -/
def fnPath : FnName → String
  | FnName.arrhythmia => "CoreMLModels/ECG_Arrhythmia.mlmodel"
  | FnName.troponin => "CoreMLModels/Troponin_Detection.mlmodel"
  | FnName.bloodPressure => "CoreMLModels/BP_Estimation.mlmodel"
  | FnName.fallDetection => "CoreMLModels/Fall_Detection.mlmodel"
  | FnName.activityRecognition => "CoreMLModels/Activity_Recognition.mlmodel"
  | FnName.signalQuality => "CoreMLModels/Signal_Quality.mlmodel"
  | FnName.glucose => "CoreMLModels/Glucose_Prediction.mlmodel"

/-- Message printed by each function after saving. -/
def fnMsg : FnName → String
  | FnName.arrhythmia => "✅ Created ECG_Arrhythmia.mlmodel"
  | FnName.troponin => "✅ Created Troponin_Detection.mlmodel"
  | FnName.bloodPressure => "✅ Created BP_Estimation.mlmodel"
  | FnName.fallDetection => "✅ Created Fall_Detection.mlmodel"
  | FnName.activityRecognition => "✅ Created Activity_Recognition.mlmodel"
  | FnName.signalQuality => "✅ Created Signal_Quality.mlmodel"
  | FnName.glucose => "✅ Created Glucose_Prediction.mlmodel"

/-- The compiled Keras model each function passes to `ct.convert`. -/
def fnCompiled (f : FnName) : KerasModel :=
  { layers := fnLayers f, compiled := some ("adam", fnLoss f) }

/-- The Core ML model each function returns (conversion result with the
metadata the function assigns before saving). -/
def fnModel (f : FnName) : MLModel :=
  { source := fnCompiled f, cfg := fnCfg f,
    author := some "LifeLens Medical AI",
    short_description := some (fnDesc f),
    version := some "1.0.0" }

/-- The full event sequence of a successful run of one function. -/
def fnEvents (f : FnName) : List Event :=
  [ Event.build (fnLayers f),
    Event.compile { layers := fnLayers f, compiled := none } "adam" (fnLoss f),
    Event.convert (fnCompiled f) (fnCfg f),
    Event.save (fnModel f) (fnPath f),
    Event.print (fnMsg f) ]

/-- The external (fallible) calls of one function, in order. -/
def fnExtEvents (f : FnName) : List Event :=
  [ Event.build (fnLayers f),
    Event.compile { layers := fnLayers f, compiled := none } "adam" (fnLoss f),
    Event.convert (fnCompiled f) (fnCfg f),
    Event.save (fnModel f) (fnPath f) ]

/-! ## The driver (`if __name__ == "__main__"`) -/

/-- The fixed order in which the driver calls the seven functions. -/
def driverOrder : List FnName :=
  [ FnName.arrhythmia, FnName.troponin, FnName.bloodPressure,
    FnName.fallDetection, FnName.activityRecognition,
    FnName.signalQuality, FnName.glucose ]

/-- Statement language for the driver.  The script uses only `printLine` and
`callModel`; `ifElse` and `whileTrue` exist so that the absence of branching
and looping is a statement about the program, not about the language. -/
inductive Stmt
  | skip
  | printLine (s : String)
  | callModel (f : FnName)
  | seq (a b : Stmt)
  | ifElse (c : Bool) (t e : Stmt)
  | whileTrue (body : Stmt)
  deriving DecidableEq, Repr

/-- Does a statement contain a loop? -/
def Stmt.hasLoop : Stmt → Bool
  | Stmt.seq a b => a.hasLoop || b.hasLoop
  | Stmt.ifElse _ t e => t.hasLoop || e.hasLoop
  | Stmt.whileTrue _ => true
  | _ => false

/-- Does a statement contain a branch? -/
def Stmt.hasBranch : Stmt → Bool
  | Stmt.seq a b => a.hasBranch || b.hasBranch
  | Stmt.ifElse _ _ _ => true
  | Stmt.whileTrue body => body.hasBranch
  | _ => false

/-- Strings a statement can possibly print. -/
def Stmt.printsOf : Stmt → List String
  | Stmt.printLine s => [s]
  | Stmt.callModel f => [fnMsg f]
  | Stmt.seq a b => a.printsOf ++ b.printsOf
  | Stmt.ifElse _ t e => t.printsOf ++ e.printsOf
  | Stmt.whileTrue body => body.printsOf
  | Stmt.skip => []

/-- One layer of the statement interpreter: structural on the statement,
with `contin` interpreting a `whileTrue` statement at one less fuel. -/
def execOne (ω : Oracle) (contin : Stmt → M Unit) : Stmt → M Unit
  | Stmt.skip => M.pure ()
  | Stmt.printLine s => pyPrint s
  | Stmt.callModel f => M.bind (runFn f ω) fun _ => M.pure ()
  | Stmt.seq a b => M.bind (execOne ω contin a) fun _ => execOne ω contin b
  | Stmt.ifElse c t e => if c then execOne ω contin t else execOne ω contin e
  | Stmt.whileTrue body =>
      M.bind (execOne ω contin body) fun _ => contin (Stmt.whileTrue body)

/-- Statement interpreter.  `fuel` bounds `whileTrue` unfoldings only. -/
def exec (ω : Oracle) : Nat → Stmt → M Unit
  | 0 => execOne ω (fun _ => fun w => (Except.error Err.outOfFuel, w))
  | fuel + 1 => execOne ω (exec ω fuel)

/-- A statement list as one statement. -/
def block : List Stmt → Stmt
  | [] => Stmt.skip
  | s :: rest => Stmt.seq s (block rest)

/-- The separator line `"=" * 50`. -/
def eqLine : String := String.mk (List.replicate 50 '=')

/-- The summary message printed after the seven calls. -/
def summaryMsg : String := "✅ All Core ML models created successfully!"

/-- The `__main__` block of the script, statement by statement. -/
def mainProg : List Stmt :=
  [ Stmt.printLine "Creating Core ML models for LifeLens...",
    Stmt.printLine eqLine,
    Stmt.callModel FnName.arrhythmia,
    Stmt.callModel FnName.troponin,
    Stmt.callModel FnName.bloodPressure,
    Stmt.callModel FnName.fallDetection,
    Stmt.callModel FnName.activityRecognition,
    Stmt.callModel FnName.signalQuality,
    Stmt.callModel FnName.glucose,
    Stmt.printLine eqLine,
    Stmt.printLine summaryMsg,
    Stmt.printLine "📁 Models saved in: CoreMLModels/",
    Stmt.printLine "\nNext steps:",
    Stmt.printLine "1. Add CoreMLModels folder to Xcode project",
    Stmt.printLine "2. Ensure \x27Copy items if needed\x27 is checked",
    Stmt.printLine "3. Models will be compiled automatically by Xcode" ]

/-- Module import: the top-level `os.makedirs('CoreMLModels', exist_ok=True)`. -/
def importModule (ω : Oracle) : M Unit :=
  osMakedirs ω "CoreMLModels" true

/-- Running the script: module import, then the `__main__` block. -/
def runScript (ω : Oracle) (fuel : Nat) : M Unit :=
  M.bind (importModule ω) fun _ => exec ω fuel (block mainProg)

/-- Call a list of model-construction functions in order (used to compare
the driver's order with permuted orders). -/
def runFns (ω : Oracle) : List FnName → M Unit
  | [] => M.pure ()
  | f :: rest => M.bind (runFn f ω) fun _ => runFns ω rest

/-- The empty initial world. -/
def w0 : World := { fs := [], trace := [] }

/-! ## The common shape of the seven functions -/

/-- The common shape of the seven model-construction functions: build a
`Sequential` model, compile it, convert it, set the three metadata fields,
save, print.  Each of the seven functions is definitionally an instance. -/
def createModel (ω : Oracle) (L : List Layer) (opt loss : String)
    (cfg : ConvertCfg) (au de ve pa ms : String) : M MLModel :=
  M.bind (kerasSequential ω L) fun model =>
  M.bind (modelCompile ω model opt loss) fun model =>
  M.bind (ctConvert ω model cfg) fun coreml =>
  let coreml := { coreml with author := some au }
  let coreml := { coreml with short_description := some de }
  let coreml := { coreml with version := some ve }
  M.bind (mlmodelSave ω coreml pa) fun _ =>
  M.bind (pyPrint ms) fun _ =>
  M.pure coreml

/-- The model value produced by a successful `createModel` run. -/
def convertedOf (L : List Layer) (opt loss : String) (cfg : ConvertCfg)
    (au de ve : String) : MLModel :=
  { source := { layers := L, compiled := some (opt, loss) }, cfg := cfg,
    author := some au, short_description := some de, version := some ve }

/-- Events of a fully successful run of the `__main__` block. -/
def mainEvents : List Event :=
  [Event.print "Creating Core ML models for LifeLens...", Event.print eqLine] ++
  fnEvents FnName.arrhythmia ++ fnEvents FnName.troponin ++
  fnEvents FnName.bloodPressure ++ fnEvents FnName.fallDetection ++
  fnEvents FnName.activityRecognition ++ fnEvents FnName.signalQuality ++
  fnEvents FnName.glucose ++
  [Event.print eqLine, Event.print summaryMsg,
   Event.print "📁 Models saved in: CoreMLModels/",
   Event.print "\nNext steps:",
   Event.print "1. Add CoreMLModels folder to Xcode project",
   Event.print "2. Ensure \x27Copy items if needed\x27 is checked",
   Event.print "3. Models will be compiled automatically by Xcode"]

/-- Events of a fully successful run of the whole script. -/
def scriptEvents : List Event :=
  Event.makedirs "CoreMLModels" true :: mainEvents

/-- Every path the script touches: the output directory and the seven
model files. -/
def scriptPaths : List String :=
  "CoreMLModels" :: driverOrder.map fnPath

/-- The statements of the `__main__` block before the summary print. -/
def mainPre : List Stmt :=
  [ Stmt.printLine "Creating Core ML models for LifeLens...",
    Stmt.printLine eqLine,
    Stmt.callModel FnName.arrhythmia,
    Stmt.callModel FnName.troponin,
    Stmt.callModel FnName.bloodPressure,
    Stmt.callModel FnName.fallDetection,
    Stmt.callModel FnName.activityRecognition,
    Stmt.callModel FnName.signalQuality,
    Stmt.callModel FnName.glucose,
    Stmt.printLine eqLine ]

/-- The statements of the `__main__` block after the summary print. -/
def mainPost : List Stmt :=
  [ Stmt.printLine "📁 Models saved in: CoreMLModels/",
    Stmt.printLine "\nNext steps:",
    Stmt.printLine "1. Add CoreMLModels folder to Xcode project",
    Stmt.printLine "2. Ensure \x27Copy items if needed\x27 is checked",
    Stmt.printLine "3. Models will be compiled automatically by Xcode" ]

instance {ε α : Type} [DecidableEq ε] [DecidableEq α] : DecidableEq (Except ε α) := fun x y =>
  match x, y with
  | Except.ok u, Except.ok v =>
      if h : u = v then isTrue (by rw [h]) else isFalse (fun hc => h (Except.ok.inj hc))
  | Except.ok _, Except.error _ => isFalse (fun hc => Except.noConfusion hc)
  | Except.error _, Except.ok _ => isFalse (fun hc => Except.noConfusion hc)
  | Except.error u, Except.error v =>
      if h : u = v then isTrue (by rw [h]) else isFalse (fun hc => h (Except.error.inj hc))

/-- Every external (fallible) call site of the script, in program order. -/
def scriptExtEvents : List Event :=
  Event.makedirs "CoreMLModels" true :: (driverOrder.map fnExtEvents).flatten

/-- The function called by a statement, if it is a call. -/
def callOf : Stmt → Option FnName
  | Stmt.callModel f => some f
  | _ => none

/-- Is an event a model save? -/
def Event.isSave : Event → Bool
  | Event.save _ _ => true
  | _ => false

/-- Events of a successful script run up to (excluding) the summary print. -/
def preSummaryEvents : List Event :=
  [Event.makedirs "CoreMLModels" true,
   Event.print "Creating Core ML models for LifeLens...", Event.print eqLine] ++
  fnEvents FnName.arrhythmia ++ fnEvents FnName.troponin ++
  fnEvents FnName.bloodPressure ++ fnEvents FnName.fallDetection ++
  fnEvents FnName.activityRecognition ++ fnEvents FnName.signalQuality ++
  fnEvents FnName.glucose ++ [Event.print eqLine]

/-- Events of a successful script run after the summary print. -/
def postSummaryEvents : List Event :=
  [Event.print "📁 Models saved in: CoreMLModels/",
   Event.print "\nNext steps:",
   Event.print "1. Add CoreMLModels folder to Xcode project",
   Event.print "2. Ensure \x27Copy items if needed\x27 is checked",
   Event.print "3. Models will be compiled automatically by Xcode"]

/-! ## Helper lemmas for the claims -/

/-! ## Theorems -/

theorem exec_skip (ω : Oracle) (fuel : Nat) :
    exec ω fuel Stmt.skip = M.pure () := by cases fuel <;> rfl

theorem exec_printLine (ω : Oracle) (fuel : Nat) (s : String) :
    exec ω fuel (Stmt.printLine s) = pyPrint s := by cases fuel <;> rfl

theorem exec_callModel (ω : Oracle) (fuel : Nat) (f : FnName) :
    exec ω fuel (Stmt.callModel f) =
      M.bind (runFn f ω) fun _ => M.pure () := by cases fuel <;> rfl

theorem exec_seq (ω : Oracle) (fuel : Nat) (a b : Stmt) :
    exec ω fuel (Stmt.seq a b) =
      M.bind (exec ω fuel a) fun _ => exec ω fuel b := by cases fuel <;> rfl

theorem exec_ifElse (ω : Oracle) (fuel : Nat) (c : Bool) (t e : Stmt) :
    exec ω fuel (Stmt.ifElse c t e) =
      if c then exec ω fuel t else exec ω fuel e := by cases fuel <;> rfl

theorem exec_while_zero (ω : Oracle) (body : Stmt) :
    exec ω 0 (Stmt.whileTrue body) =
      M.bind (exec ω 0 body) fun _ => fun w => (Except.error Err.outOfFuel, w) := rfl

theorem exec_while_succ (ω : Oracle) (fuel : Nat) (body : Stmt) :
    exec ω (fuel + 1) (Stmt.whileTrue body) =
      M.bind (exec ω (fuel + 1) body) fun _ =>
        exec ω fuel (Stmt.whileTrue body) := rfl

theorem runFn_eq (f : FnName) (ω : Oracle) :
    runFn f ω = createModel ω (fnLayers f) "adam" (fnLoss f) (fnCfg f)
      "LifeLens Medical AI" (fnDesc f) "1.0.0" (fnPath f) (fnMsg f) := by
  cases f <;> rfl

theorem fnModel_eq (f : FnName) :
    fnModel f = convertedOf (fnLayers f) "adam" (fnLoss f) (fnCfg f)
      "LifeLens Medical AI" (fnDesc f) "1.0.0" := rfl

/-- Complete case analysis of a `createModel` run: either all four external
calls succeed and the run produces exactly the build/compile/convert/save/print
events and the one file, or the first failing call aborts the run with that
call's error and only the earlier events performed. -/
theorem createModel_cases (ω : Oracle) (L : List Layer) (opt loss : String)
    (cfg : ConvertCfg) (au de ve pa ms : String) (w : World) :
    (ω (Event.build L) = true ∧
     ω (Event.compile ⟨L, none⟩ opt loss) = true ∧
     ω (Event.convert ⟨L, some (opt, loss)⟩ cfg) = true ∧
     ω (Event.save (convertedOf L opt loss cfg au de ve) pa) = true ∧
     createModel ω L opt loss cfg au de ve pa ms w =
       (Except.ok (convertedOf L opt loss cfg au de ve),
        { fs := w.fs ++ [pa],
          trace := w.trace ++
            [Event.build L, Event.compile ⟨L, none⟩ opt loss,
             Event.convert ⟨L, some (opt, loss)⟩ cfg,
             Event.save (convertedOf L opt loss cfg au de ve) pa,
             Event.print ms] })) ∨
    (ω (Event.build L) = false ∧
     createModel ω L opt loss cfg au de ve pa ms w =
       (Except.error (Err.extFail (Event.build L)), w)) ∨
    (ω (Event.build L) = true ∧
     ω (Event.compile ⟨L, none⟩ opt loss) = false ∧
     createModel ω L opt loss cfg au de ve pa ms w =
       (Except.error (Err.extFail (Event.compile ⟨L, none⟩ opt loss)),
        { fs := w.fs, trace := w.trace ++ [Event.build L] })) ∨
    (ω (Event.build L) = true ∧
     ω (Event.compile ⟨L, none⟩ opt loss) = true ∧
     ω (Event.convert ⟨L, some (opt, loss)⟩ cfg) = false ∧
     createModel ω L opt loss cfg au de ve pa ms w =
       (Except.error (Err.extFail (Event.convert ⟨L, some (opt, loss)⟩ cfg)),
        { fs := w.fs,
          trace := w.trace ++
            [Event.build L, Event.compile ⟨L, none⟩ opt loss] })) ∨
    (ω (Event.build L) = true ∧
     ω (Event.compile ⟨L, none⟩ opt loss) = true ∧
     ω (Event.convert ⟨L, some (opt, loss)⟩ cfg) = true ∧
     ω (Event.save (convertedOf L opt loss cfg au de ve) pa) = false ∧
     createModel ω L opt loss cfg au de ve pa ms w =
       (Except.error (Err.extFail
          (Event.save (convertedOf L opt loss cfg au de ve) pa)),
        { fs := w.fs,
          trace := w.trace ++
            [Event.build L, Event.compile ⟨L, none⟩ opt loss,
             Event.convert ⟨L, some (opt, loss)⟩ cfg] })) := by
  by_cases h1 : ω (Event.build L)
  · by_cases h2 : ω (Event.compile ⟨L, none⟩ opt loss)
    · by_cases h3 : ω (Event.convert ⟨L, some (opt, loss)⟩ cfg)
      · by_cases h4 : ω (Event.save (convertedOf L opt loss cfg au de ve) pa)
        · left
          refine ⟨h1, h2, h3, h4, ?_⟩
          simp [createModel, M.bind, M.pure, kerasSequential, modelCompile,
            ctConvert, mlmodelSave, pyPrint, World.record, convertedOf,
            h1, h2, h3, h4] at *
        · right; right; right; right
          refine ⟨h1, h2, h3, by simpa using h4, ?_⟩
          simp [createModel, M.bind, M.pure, kerasSequential, modelCompile,
            ctConvert, mlmodelSave, pyPrint, World.record, convertedOf,
            h1, h2, h3] at *
          simp [h4]
      · right; right; right; left
        refine ⟨h1, h2, by simpa using h3, ?_⟩
        simp [createModel, M.bind, M.pure, kerasSequential, modelCompile,
          ctConvert, mlmodelSave, pyPrint, World.record, h1, h2] at *
        simp [h3]
    · right; right; left
      refine ⟨h1, by simpa using h2, ?_⟩
      simp [createModel, M.bind, M.pure, kerasSequential, modelCompile,
        ctConvert, mlmodelSave, pyPrint, World.record, h1] at *
      simp [h2]
  · right; left
    refine ⟨by simpa using h1, ?_⟩
    simp [createModel, M.bind, M.pure, kerasSequential, modelCompile,
      ctConvert, mlmodelSave, pyPrint, World.record] at *
    simp [h1]

/-- Specialization of `createModel_cases` to the seven functions. -/
theorem runFn_cases (f : FnName) (ω : Oracle) (w : World) :
    (ω (Event.build (fnLayers f)) = true ∧
     ω (Event.compile ⟨fnLayers f, none⟩ "adam" (fnLoss f)) = true ∧
     ω (Event.convert (fnCompiled f) (fnCfg f)) = true ∧
     ω (Event.save (fnModel f) (fnPath f)) = true ∧
     runFn f ω w =
       (Except.ok (fnModel f),
        { fs := w.fs ++ [fnPath f], trace := w.trace ++ fnEvents f })) ∨
    (ω (Event.build (fnLayers f)) = false ∧
     runFn f ω w =
       (Except.error (Err.extFail (Event.build (fnLayers f))), w)) ∨
    (ω (Event.build (fnLayers f)) = true ∧
     ω (Event.compile ⟨fnLayers f, none⟩ "adam" (fnLoss f)) = false ∧
     runFn f ω w =
       (Except.error (Err.extFail (Event.compile ⟨fnLayers f, none⟩ "adam" (fnLoss f))),
        { fs := w.fs, trace := w.trace ++ [Event.build (fnLayers f)] })) ∨
    (ω (Event.build (fnLayers f)) = true ∧
     ω (Event.compile ⟨fnLayers f, none⟩ "adam" (fnLoss f)) = true ∧
     ω (Event.convert (fnCompiled f) (fnCfg f)) = false ∧
     runFn f ω w =
       (Except.error (Err.extFail (Event.convert (fnCompiled f) (fnCfg f))),
        { fs := w.fs,
          trace := w.trace ++
            [Event.build (fnLayers f),
             Event.compile ⟨fnLayers f, none⟩ "adam" (fnLoss f)] })) ∨
    (ω (Event.build (fnLayers f)) = true ∧
     ω (Event.compile ⟨fnLayers f, none⟩ "adam" (fnLoss f)) = true ∧
     ω (Event.convert (fnCompiled f) (fnCfg f)) = true ∧
     ω (Event.save (fnModel f) (fnPath f)) = false ∧
     runFn f ω w =
       (Except.error (Err.extFail (Event.save (fnModel f) (fnPath f))),
        { fs := w.fs,
          trace := w.trace ++
            [Event.build (fnLayers f),
             Event.compile ⟨fnLayers f, none⟩ "adam" (fnLoss f),
             Event.convert (fnCompiled f) (fnCfg f)] })) := by
  have h := createModel_cases ω (fnLayers f) "adam" (fnLoss f) (fnCfg f)
    "LifeLens Medical AI" (fnDesc f) "1.0.0" (fnPath f) (fnMsg f) w
  rw [runFn_eq f ω]
  simpa [fnEvents, fnCompiled, fnModel_eq, convertedOf] using h

/-- A fully successful run of any of the seven functions. -/
theorem runFn_ok (f : FnName) (w : World) :
    runFn f okOracle w =
      (Except.ok (fnModel f),
       { fs := w.fs ++ [fnPath f], trace := w.trace ++ fnEvents f }) := by
  rcases runFn_cases f okOracle w with h | h | h | h | h
  · exact h.2.2.2.2
  · exact absurd h.1 (by simp [okOracle])
  · exact absurd h.2.1 (by simp [okOracle])
  · exact absurd h.2.2.1 (by simp [okOracle])
  · exact absurd h.2.2.2.1 (by simp [okOracle])

/-! ## Successful runs of the driver -/

theorem exec_main_ok (fuel : Nat) (w : World) :
    exec okOracle fuel (block mainProg) w =
      (Except.ok (),
       { fs := w.fs ++ driverOrder.map fnPath, trace := w.trace ++ mainEvents }) := by
  simp [mainProg, block, exec_skip, exec_printLine, exec_callModel, exec_seq, exec_ifElse, M.bind, M.pure, pyPrint, World.record,
    runFn_ok, mainEvents, driverOrder, fnPath]

theorem runScript_ok (fuel : Nat) (w : World) :
    runScript okOracle fuel w =
      (Except.ok (),
       { fs := (if "CoreMLModels" ∈ w.fs then w.fs else w.fs ++ ["CoreMLModels"]) ++
            driverOrder.map fnPath,
         trace := w.trace ++ scriptEvents }) := by
  unfold runScript importModule osMakedirs
  by_cases hd : "CoreMLModels" ∈ w.fs <;>
    simp [okOracle, M.bind, World.record, hd, exec_main_ok, scriptEvents]

/-! ## Frame properties of arbitrary (possibly failing) runs -/

/-- Any run of any statement only appends to the world: the new filesystem
entries are model-file paths, and the new printed lines come from the
statement's own print strings. -/
theorem exec_delta (ω : Oracle) :
    ∀ fuel s w, ∃ δfs δtr,
      (exec ω fuel s w).2 = { fs := w.fs ++ δfs, trace := w.trace ++ δtr } ∧
      (∀ p ∈ δfs, ∃ f, p = fnPath f) ∧
      (∀ msg, Event.print msg ∈ δtr → msg ∈ s.printsOf) := by
  intro fuel
  induction fuel with
  | zero =>
      intro s
      induction s with
      | skip =>
          intro w
          exact ⟨[], [], by simp [exec_skip, exec_printLine, exec_callModel, exec_seq, exec_ifElse, M.pure], by simp, by simp⟩
      | printLine s =>
          intro w
          refine ⟨[], [Event.print s], by simp [exec_skip, exec_printLine, exec_callModel, exec_seq, exec_ifElse, pyPrint, World.record], by simp, ?_⟩
          intro msg hm
          simp at hm
          simp [Stmt.printsOf, hm]
      | callModel f =>
          intro w
          rcases runFn_cases f ω w with h | h | h | h | h
          · refine ⟨[fnPath f], fnEvents f, ?_, ?_, ?_⟩
            · simp [exec_skip, exec_printLine, exec_callModel, exec_seq, exec_ifElse, M.bind, M.pure, h.2.2.2.2]
            · intro p hp; simp at hp; exact ⟨f, hp⟩
            · intro msg hm
              simp [fnEvents] at hm
              simp [Stmt.printsOf, hm]
          · exact ⟨[], [], by simp [exec_skip, exec_printLine, exec_callModel, exec_seq, exec_ifElse, M.bind, M.pure, h.2], by simp, by simp⟩
          · refine ⟨[], [Event.build (fnLayers f)],
              by simp [exec_skip, exec_printLine, exec_callModel, exec_seq, exec_ifElse, M.bind, M.pure, h.2.2], by simp, ?_⟩
            intro msg hm; simp at hm
          · refine ⟨[], [Event.build (fnLayers f),
              Event.compile ⟨fnLayers f, none⟩ "adam" (fnLoss f)],
              by simp [exec_skip, exec_printLine, exec_callModel, exec_seq, exec_ifElse, M.bind, M.pure, h.2.2.2], by simp, ?_⟩
            intro msg hm; simp at hm
          · refine ⟨[], [Event.build (fnLayers f),
              Event.compile ⟨fnLayers f, none⟩ "adam" (fnLoss f),
              Event.convert (fnCompiled f) (fnCfg f)],
              by simp [exec_skip, exec_printLine, exec_callModel, exec_seq, exec_ifElse, M.bind, M.pure, h.2.2.2.2], by simp, ?_⟩
            intro msg hm; simp at hm
      | seq a b iha ihb =>
          intro w
          rcases hres : exec ω 0 a w with ⟨r1, w1⟩
          obtain ⟨δ1, τ1, hw1, hfs1, htr1⟩ := iha w
          rw [hres] at hw1
          have hw1' : w1 = { fs := w.fs ++ δ1, trace := w.trace ++ τ1 } := by
            simpa using hw1
          subst hw1'
          cases r1 with
          | error ε =>
              refine ⟨δ1, τ1, ?_, hfs1, ?_⟩
              · simp [exec_skip, exec_printLine, exec_callModel, exec_seq, exec_ifElse, M.bind, hres]
              · intro msg hm
                simp [Stmt.printsOf]
                exact Or.inl (htr1 msg hm)
          | ok a1 =>
              obtain ⟨δ2, τ2, hw2, hfs2, htr2⟩ :=
                ihb { fs := w.fs ++ δ1, trace := w.trace ++ τ1 }
              refine ⟨δ1 ++ δ2, τ1 ++ τ2, ?_, ?_, ?_⟩
              · simp only [exec_skip, exec_printLine, exec_callModel, exec_seq, exec_ifElse, M.bind, hres]
                simp at hw2
                simp [hw2]
              · intro p hp
                rcases List.mem_append.1 hp with h | h
                exacts [hfs1 p h, hfs2 p h]
              · intro msg hm
                simp [Stmt.printsOf]
                rcases List.mem_append.1 hm with h | h
                exacts [Or.inl (htr1 msg h), Or.inr (htr2 msg h)]
      | ifElse c t e iht ihe =>
          intro w
          cases c with
          | false =>
              obtain ⟨δ, τ, hw, hfs, htr⟩ := ihe w
              refine ⟨δ, τ, by simpa [exec_ifElse] using hw, hfs, ?_⟩
              intro msg hm
              simp [Stmt.printsOf]
              exact Or.inr (htr msg hm)
          | true =>
              obtain ⟨δ, τ, hw, hfs, htr⟩ := iht w
              refine ⟨δ, τ, by simpa [exec_ifElse] using hw, hfs, ?_⟩
              intro msg hm
              simp [Stmt.printsOf]
              exact Or.inl (htr msg hm)
      | whileTrue body ihb =>
          intro w
          rcases hres : exec ω 0 body w with ⟨r1, w1⟩
          obtain ⟨δ1, τ1, hw1, hfs1, htr1⟩ := ihb w
          rw [hres] at hw1
          have hw1x : w1 = { fs := w.fs ++ δ1, trace := w.trace ++ τ1 } := by
            simpa using hw1
          subst hw1x
          refine ⟨δ1, τ1, ?_, hfs1, ?_⟩
          · rw [exec_while_zero]
            simp only [M.bind, hres]
            cases r1 <;> rfl
          · intro msg hm
            simpa [Stmt.printsOf] using htr1 msg hm
  | succ n ihn =>
      intro s
      induction s with
      | skip =>
          intro w
          exact ⟨[], [], by simp [exec_skip, exec_printLine, exec_callModel, exec_seq, exec_ifElse, M.pure], by simp, by simp⟩
      | printLine s =>
          intro w
          refine ⟨[], [Event.print s], by simp [exec_skip, exec_printLine, exec_callModel, exec_seq, exec_ifElse, pyPrint, World.record], by simp, ?_⟩
          intro msg hm
          simp at hm
          simp [Stmt.printsOf, hm]
      | callModel f =>
          intro w
          rcases runFn_cases f ω w with h | h | h | h | h
          · refine ⟨[fnPath f], fnEvents f, ?_, ?_, ?_⟩
            · simp [exec_skip, exec_printLine, exec_callModel, exec_seq, exec_ifElse, M.bind, M.pure, h.2.2.2.2]
            · intro p hp; simp at hp; exact ⟨f, hp⟩
            · intro msg hm
              simp [fnEvents] at hm
              simp [Stmt.printsOf, hm]
          · exact ⟨[], [], by simp [exec_skip, exec_printLine, exec_callModel, exec_seq, exec_ifElse, M.bind, M.pure, h.2], by simp, by simp⟩
          · refine ⟨[], [Event.build (fnLayers f)],
              by simp [exec_skip, exec_printLine, exec_callModel, exec_seq, exec_ifElse, M.bind, M.pure, h.2.2], by simp, ?_⟩
            intro msg hm; simp at hm
          · refine ⟨[], [Event.build (fnLayers f),
              Event.compile ⟨fnLayers f, none⟩ "adam" (fnLoss f)],
              by simp [exec_skip, exec_printLine, exec_callModel, exec_seq, exec_ifElse, M.bind, M.pure, h.2.2.2], by simp, ?_⟩
            intro msg hm; simp at hm
          · refine ⟨[], [Event.build (fnLayers f),
              Event.compile ⟨fnLayers f, none⟩ "adam" (fnLoss f),
              Event.convert (fnCompiled f) (fnCfg f)],
              by simp [exec_skip, exec_printLine, exec_callModel, exec_seq, exec_ifElse, M.bind, M.pure, h.2.2.2.2], by simp, ?_⟩
            intro msg hm; simp at hm
      | seq a b iha ihb =>
          intro w
          rcases hres : exec ω (n + 1) a w with ⟨r1, w1⟩
          obtain ⟨δ1, τ1, hw1, hfs1, htr1⟩ := iha w
          rw [hres] at hw1
          have hw1' : w1 = { fs := w.fs ++ δ1, trace := w.trace ++ τ1 } := by
            simpa using hw1
          subst hw1'
          cases r1 with
          | error ε =>
              refine ⟨δ1, τ1, ?_, hfs1, ?_⟩
              · simp [exec_skip, exec_printLine, exec_callModel, exec_seq, exec_ifElse, M.bind, hres]
              · intro msg hm
                simp [Stmt.printsOf]
                exact Or.inl (htr1 msg hm)
          | ok a1 =>
              obtain ⟨δ2, τ2, hw2, hfs2, htr2⟩ :=
                ihb { fs := w.fs ++ δ1, trace := w.trace ++ τ1 }
              refine ⟨δ1 ++ δ2, τ1 ++ τ2, ?_, ?_, ?_⟩
              · simp only [exec_skip, exec_printLine, exec_callModel, exec_seq, exec_ifElse, M.bind, hres]
                simp at hw2
                simp [hw2]
              · intro p hp
                rcases List.mem_append.1 hp with h | h
                exacts [hfs1 p h, hfs2 p h]
              · intro msg hm
                simp [Stmt.printsOf]
                rcases List.mem_append.1 hm with h | h
                exacts [Or.inl (htr1 msg h), Or.inr (htr2 msg h)]
      | ifElse c t e iht ihe =>
          intro w
          cases c with
          | false =>
              obtain ⟨δ, τ, hw, hfs, htr⟩ := ihe w
              refine ⟨δ, τ, by simpa [exec_ifElse] using hw, hfs, ?_⟩
              intro msg hm
              simp [Stmt.printsOf]
              exact Or.inr (htr msg hm)
          | true =>
              obtain ⟨δ, τ, hw, hfs, htr⟩ := iht w
              refine ⟨δ, τ, by simpa [exec_ifElse] using hw, hfs, ?_⟩
              intro msg hm
              simp [Stmt.printsOf]
              exact Or.inl (htr msg hm)
      | whileTrue body ihbody =>
          intro w
          rcases hres : exec ω (n + 1) body w with ⟨r1, w1⟩
          obtain ⟨δ1, τ1, hw1, hfs1, htr1⟩ := ihbody w
          rw [hres] at hw1
          have hw1' : w1 = { fs := w.fs ++ δ1, trace := w.trace ++ τ1 } := by
            simpa using hw1
          subst hw1'
          cases r1 with
          | error ε =>
              refine ⟨δ1, τ1, ?_, hfs1, ?_⟩
              · rw [exec_while_succ]
                simp [M.bind, hres]
              · intro msg hm
                simpa [Stmt.printsOf] using htr1 msg hm
          | ok a1 =>
              obtain ⟨δ2, τ2, hw2, hfs2, htr2⟩ :=
                ihn (Stmt.whileTrue body) { fs := w.fs ++ δ1, trace := w.trace ++ τ1 }
              refine ⟨δ1 ++ δ2, τ1 ++ τ2, ?_, ?_, ?_⟩
              · rw [exec_while_succ]
                simp only [M.bind, hres]
                simp at hw2
                simp [hw2]
              · intro p hp
                rcases List.mem_append.1 hp with h | h
                exacts [hfs1 p h, hfs2 p h]
              · intro msg hm
                rcases List.mem_append.1 hm with h | h
                · simpa [Stmt.printsOf] using htr1 msg h
                · simpa [Stmt.printsOf] using htr2 msg h

theorem exec_block_append (ω : Oracle) (fuel : Nat) :
    ∀ (l1 l2 : List Stmt) (w : World),
      exec ω fuel (block (l1 ++ l2)) w =
        M.bind (exec ω fuel (block l1)) (fun _ => exec ω fuel (block l2)) w := by
  intro l1
  induction l1 with
  | nil =>
      intro l2 w
      simp [block, exec_skip, exec_printLine, exec_callModel, exec_seq, exec_ifElse, M.bind, M.pure]
  | cons s rest ih =>
      intro l2 w
      simp only [List.cons_append, block, exec_seq, M.bind]
      rcases hres : exec ω fuel s w with ⟨r1, w1⟩
      cases r1 <;> simp [ih, M.bind]

/-! ## The driver around the summary print -/

theorem mainProg_decomp :
    mainProg = mainPre ++ Stmt.printLine summaryMsg :: mainPost := rfl

/-- No statement before the summary print can print the summary message. -/
theorem summary_not_pre : summaryMsg ∉ (block mainPre).printsOf := by decide

theorem exec_tail_ok (ω : Oracle) (fuel : Nat) (w : World) :
    exec ω fuel (block (Stmt.printLine summaryMsg :: mainPost)) w =
      (Except.ok (),
       { w with trace := w.trace ++
          [Event.print summaryMsg,
           Event.print "📁 Models saved in: CoreMLModels/",
           Event.print "\nNext steps:",
           Event.print "1. Add CoreMLModels folder to Xcode project",
           Event.print "2. Ensure \x27Copy items if needed\x27 is checked",
           Event.print "3. Models will be compiled automatically by Xcode"] }) := by
  simp [mainPost, block, exec_skip, exec_printLine, exec_callModel, exec_seq, exec_ifElse, M.bind, M.pure, pyPrint, World.record]

/-- A run of the script that raises never prints the success summary. -/
theorem runScript_err_no_summary (ω : Oracle) (fuel : Nat) (w : World)
    (ε : Err) (w' : World) (h : runScript ω fuel w = (Except.error ε, w')) :
    ∃ δ, w'.trace = w.trace ++ δ ∧ Event.print summaryMsg ∉ δ := by
  unfold runScript importModule osMakedirs at h
  by_cases hω : ω (Event.makedirs "CoreMLModels" true)
  · have hmain : ∀ w1 : World, exec ω fuel (block mainProg) w1 = (Except.error ε, w') →
        ∃ δ1, w'.trace = w1.trace ++ δ1 ∧ Event.print summaryMsg ∉ δ1 := by
      intro w1 h1
      rw [mainProg_decomp, exec_block_append] at h1
      rcases hpre : exec ω fuel (block mainPre) w1 with ⟨rpre, w2⟩
      obtain ⟨δfs, δtr, hw2, _, htr⟩ := exec_delta ω fuel (block mainPre) w1
      rw [hpre] at hw2
      simp at hw2
      cases rpre with
      | ok a =>
          rw [M.bind] at h1
          rw [hpre] at h1
          simp [exec_tail_ok] at h1
      | error ε2 =>
          rw [M.bind] at h1
          rw [hpre] at h1
          simp at h1
          refine ⟨δtr, by rw [← h1.2, hw2], ?_⟩
          intro hmem
          exact summary_not_pre (htr summaryMsg hmem)
    by_cases hd : "CoreMLModels" ∈ w.fs
    · simp [M.bind, hω, hd, World.record] at h
      obtain ⟨δ1, hδ1, hns⟩ := hmain _ h
      refine ⟨Event.makedirs "CoreMLModels" true :: δ1, ?_, ?_⟩
      · simpa using hδ1
      · simpa using hns
    · simp [M.bind, hω, hd, World.record] at h
      obtain ⟨δ1, hδ1, hns⟩ := hmain _ h
      refine ⟨Event.makedirs "CoreMLModels" true :: δ1, ?_, ?_⟩
      · simpa using hδ1
      · simpa using hns
  · simp [M.bind, hω] at h
    exact ⟨[], by simp [← h.2], by simp⟩

/-! ## Fuel-independence and impossibility of fuel exhaustion -/

theorem exec_fuel_inv (s : Stmt) (h : s.hasLoop = false) :
    ∀ ω fuel fuel2 w, exec ω fuel s w = exec ω fuel2 s w := by
  induction s with
  | skip => intro ω f1 f2 w; simp [exec_skip]
  | printLine s => intro ω f1 f2 w; simp [exec_printLine]
  | callModel f => intro ω f1 f2 w; simp [exec_callModel]
  | seq a b iha ihb =>
      simp [Stmt.hasLoop] at h
      intro ω f1 f2 w
      simp only [exec_seq, M.bind]
      rw [iha h.1 ω f1 f2 w]
      rcases exec ω f2 a w with ⟨r1, w1⟩
      cases r1 with
      | ok a1 => exact ihb h.2 ω f1 f2 w1
      | error ε => rfl
  | ifElse c t e iht ihe =>
      simp [Stmt.hasLoop] at h
      intro ω f1 f2 w
      cases c with
      | true => simpa [exec_ifElse] using iht h.1 ω f1 f2 w
      | false => simpa [exec_ifElse] using ihe h.2 ω f1 f2 w
  | whileTrue body ih => simp [Stmt.hasLoop] at h

theorem exec_no_fuel_err (s : Stmt) (h : s.hasLoop = false) :
    ∀ ω fuel w, (exec ω fuel s w).1 ≠ Except.error Err.outOfFuel := by
  induction s with
  | skip => intro ω fuel w; simp [exec_skip, exec_printLine, exec_callModel, exec_seq, exec_ifElse, M.pure]
  | printLine s => intro ω fuel w; simp [exec_skip, exec_printLine, exec_callModel, exec_seq, exec_ifElse, pyPrint]
  | callModel f =>
      intro ω fuel w
      rcases runFn_cases f ω w with hc | hc | hc | hc | hc
      · simp [exec_skip, exec_printLine, exec_callModel, exec_seq, exec_ifElse, M.bind, M.pure, hc.2.2.2.2]
      · simp [exec_skip, exec_printLine, exec_callModel, exec_seq, exec_ifElse, M.bind, M.pure, hc.2]
      · simp [exec_skip, exec_printLine, exec_callModel, exec_seq, exec_ifElse, M.bind, M.pure, hc.2.2]
      · simp [exec_skip, exec_printLine, exec_callModel, exec_seq, exec_ifElse, M.bind, M.pure, hc.2.2.2]
      · simp [exec_skip, exec_printLine, exec_callModel, exec_seq, exec_ifElse, M.bind, M.pure, hc.2.2.2.2]
  | seq a b iha ihb =>
      simp [Stmt.hasLoop] at h
      intro ω fuel w
      simp only [exec_seq, M.bind]
      rcases hres : exec ω fuel a w with ⟨r1, w1⟩
      cases r1 with
      | ok a1 => simpa using ihb h.2 ω fuel w1
      | error ε =>
          have := iha h.1 ω fuel w
          rw [hres] at this
          simpa using this
  | ifElse c t e iht ihe =>
      simp [Stmt.hasLoop] at h
      intro ω fuel w
      cases c with
      | true => simpa [exec_ifElse] using iht h.1 ω fuel w
      | false => simpa [exec_ifElse] using ihe h.2 ω fuel w
  | whileTrue body ih => simp [Stmt.hasLoop] at h

/-! ## Running the seven functions in any order -/

theorem runFns_ok : ∀ (l : List FnName) (w : World),
    runFns okOracle l w =
      (Except.ok (),
       { fs := w.fs ++ l.map fnPath,
         trace := w.trace ++ (l.map fnEvents).flatten }) := by
  intro l
  induction l with
  | nil => intro w; simp [runFns, M.pure]
  | cons f rest ih =>
      intro w
      simp [runFns, M.bind, runFn_ok, ih, List.append_assoc]

/-! ## Remaining helper definitions for the claims -/

theorem runScript_fuel_inv (ω : Oracle) (fuel fuel2 : Nat) (w : World) :
    runScript ω fuel w = runScript ω fuel2 w := by
  unfold runScript
  unfold M.bind
  rcases hres : importModule ω w with ⟨r1, w1⟩
  cases r1 with
  | ok a => exact exec_fuel_inv (block mainProg) (by decide) ω fuel fuel2 w1
  | error ε => rfl

/-- A run of one of the seven functions in which exactly one of its own
external calls raises returns exactly that call's error. -/
theorem runFn_failOnly (f : FnName) (e : Event) (he : e ∈ fnExtEvents f)
    (w : World) :
    (runFn f (failOnly e) w).1 = Except.error (Err.extFail e) := by
  have hmem : e = Event.build (fnLayers f) ∨
      e = Event.compile ⟨fnLayers f, none⟩ "adam" (fnLoss f) ∨
      e = Event.convert (fnCompiled f) (fnCfg f) ∨
      e = Event.save (fnModel f) (fnPath f) := by
    simpa [fnExtEvents] using he
  rcases hmem with h1 | h1 | h1 | h1
  · subst h1
    rcases runFn_cases f (failOnly (Event.build (fnLayers f))) w
      with ⟨hb, hc, hv, hs, heq⟩ | ⟨hb, heq⟩ | ⟨hb, hc, heq⟩ |
        ⟨hb, hc, hv, heq⟩ | ⟨hb, hc, hv, hs, heq⟩ <;>
    first
      | (exfalso; revert hb; simp [failOnly]; done)
      | (exfalso; revert hc; simp [failOnly]; done)
      | (exfalso; revert hv; simp [failOnly]; done)
      | (exfalso; revert hs; simp [failOnly]; done)
      | (rw [heq])
  · subst h1
    rcases runFn_cases f
        (failOnly (Event.compile ⟨fnLayers f, none⟩ "adam" (fnLoss f))) w
      with ⟨hb, hc, hv, hs, heq⟩ | ⟨hb, heq⟩ | ⟨hb, hc, heq⟩ |
        ⟨hb, hc, hv, heq⟩ | ⟨hb, hc, hv, hs, heq⟩ <;>
    first
      | (exfalso; revert hb; simp [failOnly]; done)
      | (exfalso; revert hc; simp [failOnly]; done)
      | (exfalso; revert hv; simp [failOnly]; done)
      | (exfalso; revert hs; simp [failOnly]; done)
      | (rw [heq])
  · subst h1
    rcases runFn_cases f (failOnly (Event.convert (fnCompiled f) (fnCfg f))) w
      with ⟨hb, hc, hv, hs, heq⟩ | ⟨hb, heq⟩ | ⟨hb, hc, heq⟩ |
        ⟨hb, hc, hv, heq⟩ | ⟨hb, hc, hv, hs, heq⟩ <;>
    first
      | (exfalso; revert hb; simp [failOnly]; done)
      | (exfalso; revert hc; simp [failOnly]; done)
      | (exfalso; revert hv; simp [failOnly]; done)
      | (exfalso; revert hs; simp [failOnly]; done)
      | (rw [heq])
  · subst h1
    rcases runFn_cases f (failOnly (Event.save (fnModel f) (fnPath f))) w
      with ⟨hb, hc, hv, hs, heq⟩ | ⟨hb, heq⟩ | ⟨hb, hc, heq⟩ |
        ⟨hb, hc, hv, heq⟩ | ⟨hb, hc, hv, hs, heq⟩ <;>
    first
      | (exfalso; revert hb; simp [failOnly]; done)
      | (exfalso; revert hc; simp [failOnly]; done)
      | (exfalso; revert hv; simp [failOnly]; done)
      | (exfalso; revert hs; simp [failOnly]; done)
      | (rw [heq])

/-- Evaluation of all 29 single-failure runs of the whole script from the
initial world: the failing call's error is the script's exit error. -/
theorem runScript_failOnly_w0 :
    ∀ e ∈ scriptExtEvents,
      (runScript (failOnly e) 0 w0).1 = Except.error (Err.extFail e) := by
  decide

/-! ## The claims -/

/-- C1: every successful call of one of the seven model-construction functions
builds a network architecture, compiles it, converts it to the mobile model
format, attaches author, short-description and version metadata to the
converted model, and writes exactly one model file to disk before returning
the converted model (the saved model is the returned one). -/
theorem claim_C1 (f : FnName) (ω : Oracle) (w : World) (m : MLModel) (w' : World)
    (h : runFn f ω w = (Except.ok m, w')) :
    ∃ (L : List Layer) (opt loss : String) (km : KerasModel) (cfg : ConvertCfg),
      w'.trace = w.trace ++
        [Event.build L, Event.compile { layers := L, compiled := none } opt loss,
         Event.convert km cfg, Event.save m (fnPath f), Event.print (fnMsg f)] ∧
      km = { layers := L, compiled := some (opt, loss) } ∧
      m.source = km ∧ m.cfg = cfg ∧
      m.author = some "LifeLens Medical AI" ∧
      m.short_description = some (fnDesc f) ∧
      m.version = some "1.0.0" ∧
      w'.fs = w.fs ++ [fnPath f] := by
  rcases runFn_cases f ω w with hc | hc | hc | hc | hc
  · have heq := hc.2.2.2.2
    rw [h] at heq
    injection heq with h1 h2
    injection h1 with hm
    subst hm
    subst h2
    exact ⟨fnLayers f, "adam", fnLoss f, fnCompiled f, fnCfg f,
      rfl, rfl, rfl, rfl, rfl, rfl, rfl, rfl⟩
  · have heq := hc.2
    rw [h] at heq; simp at heq
  · have heq := hc.2.2
    rw [h] at heq; simp at heq
  · have heq := hc.2.2.2
    rw [h] at heq; simp at heq
  · have heq := hc.2.2.2.2
    rw [h] at heq; simp at heq

/-- Witness for C1 at the arrhythmia function under a fully successful run. -/
theorem claim_C1_witness :
    ∃ (L : List Layer) (opt loss : String) (km : KerasModel) (cfg : ConvertCfg),
      ({ fs := w0.fs ++ [fnPath FnName.arrhythmia],
         trace := w0.trace ++ fnEvents FnName.arrhythmia } : World).trace =
        w0.trace ++
          [Event.build L, Event.compile { layers := L, compiled := none } opt loss,
           Event.convert km cfg,
           Event.save (fnModel FnName.arrhythmia) (fnPath FnName.arrhythmia),
           Event.print (fnMsg FnName.arrhythmia)] ∧
      km = { layers := L, compiled := some (opt, loss) } ∧
      (fnModel FnName.arrhythmia).source = km ∧
      (fnModel FnName.arrhythmia).cfg = cfg ∧
      (fnModel FnName.arrhythmia).author = some "LifeLens Medical AI" ∧
      (fnModel FnName.arrhythmia).short_description = some (fnDesc FnName.arrhythmia) ∧
      (fnModel FnName.arrhythmia).version = some "1.0.0" ∧
      ({ fs := w0.fs ++ [fnPath FnName.arrhythmia],
         trace := w0.trace ++ fnEvents FnName.arrhythmia } : World).fs =
        w0.fs ++ [fnPath FnName.arrhythmia] :=
  claim_C1 FnName.arrhythmia okOracle w0 (fnModel FnName.arrhythmia) _
    (runFn_ok FnName.arrhythmia w0)

/-- C2: executed as the main program, the driver invokes each of the seven
model-construction functions exactly once, in the fixed order arrhythmia,
troponin, blood pressure, fall detection, activity recognition, signal
quality, glucose, and no statement of the driver branches or loops. -/
theorem claim_C2 :
    mainProg.filterMap callOf =
      [FnName.arrhythmia, FnName.troponin, FnName.bloodPressure,
       FnName.fallDetection, FnName.activityRecognition,
       FnName.signalQuality, FnName.glucose] ∧
    mainProg.filterMap callOf = driverOrder ∧
    (∀ f : FnName, (mainProg.filterMap callOf).count f = 1) ∧
    (∀ s ∈ mainProg, s.hasBranch = false ∧ s.hasLoop = false) := by
  refine ⟨rfl, rfl, ?_, ?_⟩
  · intro f
    cases f <;> decide
  · decide

/-- Witness for C2 at the glucose call statement. -/
theorem claim_C2_witness :
    Stmt.callModel FnName.glucose ∈ mainProg ∧
    (Stmt.callModel FnName.glucose).hasBranch = false ∧
    (Stmt.callModel FnName.glucose).hasLoop = false :=
  ⟨by decide,
   (claim_C2.2.2.2 (Stmt.callModel FnName.glucose) (by decide)).1,
   (claim_C2.2.2.2 (Stmt.callModel FnName.glucose) (by decide)).2⟩

/-- C3: no function catches exceptions.  For every external call site of the
script, the run in which exactly that call raises makes the enclosing
model-construction function return that very error unchanged, and makes the
whole script exit with that very error. -/
theorem claim_C3 :
    ∀ e ∈ scriptExtEvents,
      (∀ (f : FnName) (w : World), e ∈ fnExtEvents f →
          (runFn f (failOnly e) w).1 = Except.error (Err.extFail e)) ∧
      (∀ fuel : Nat,
          (runScript (failOnly e) fuel w0).1 = Except.error (Err.extFail e)) := by
  intro e he
  constructor
  · intro f w hef
    exact runFn_failOnly f e hef w
  · intro fuel
    rw [runScript_fuel_inv (failOnly e) fuel 0 w0]
    exact runScript_failOnly_w0 e he

/-- Witness for C3 at the arrhythmia `keras.Sequential` call. -/
theorem claim_C3_witness :
    (runFn FnName.arrhythmia (failOnly (Event.build arrhythmiaLayers)) w0).1 =
      Except.error (Err.extFail (Event.build arrhythmiaLayers)) ∧
    (runScript (failOnly (Event.build arrhythmiaLayers)) 5 w0).1 =
      Except.error (Err.extFail (Event.build arrhythmiaLayers)) :=
  ⟨(claim_C3 (Event.build arrhythmiaLayers) (by decide)).1 FnName.arrhythmia w0
     (by decide),
   (claim_C3 (Event.build arrhythmiaLayers) (by decide)).2 5⟩

/-- C4: the script's only filesystem effect is on the output directory:
whatever the oracle does, every path the script adds is the `CoreMLModels`
directory or one of the seven model files inside it, nothing is removed,
and a fully successful run on a fresh filesystem adds exactly those eight
paths. -/
theorem claim_C4 :
    (∀ (ω : Oracle) (fuel : Nat) (w : World) (r : Except Err Unit) (w' : World),
        runScript ω fuel w = (r, w') →
        ∃ δ, w'.fs = w.fs ++ δ ∧ ∀ p ∈ δ, p ∈ scriptPaths) ∧
    (∀ (fuel : Nat) (w : World), "CoreMLModels" ∉ w.fs →
        ∃ w', runScript okOracle fuel w = (Except.ok (), w') ∧
          w'.fs = w.fs ++ scriptPaths) ∧
    (∀ p ∈ scriptPaths, p = "CoreMLModels" ∨ ∃ s, p = "CoreMLModels/" ++ s) := by
  refine ⟨?_, ?_, ?_⟩
  · intro ω fuel w r w' h
    unfold runScript importModule osMakedirs at h
    by_cases hω : ω (Event.makedirs "CoreMLModels" true)
    · by_cases hd : "CoreMLModels" ∈ w.fs
      · simp [M.bind, hω, hd, World.record] at h
        obtain ⟨δfs, δtr, hw', hfs, _⟩ := exec_delta ω fuel (block mainProg)
          { fs := w.fs, trace := w.trace ++ [Event.makedirs "CoreMLModels" true] }
        rw [h] at hw'
        simp at hw'
        refine ⟨δfs, by rw [hw'], ?_⟩
        intro p hp
        obtain ⟨f, rfl⟩ := hfs p hp
        cases f <;> decide
      · simp [M.bind, hω, hd, World.record] at h
        obtain ⟨δfs, δtr, hw', hfs, _⟩ := exec_delta ω fuel (block mainProg)
          { fs := w.fs ++ ["CoreMLModels"],
            trace := w.trace ++ [Event.makedirs "CoreMLModels" true] }
        rw [h] at hw'
        simp at hw'
        refine ⟨"CoreMLModels" :: δfs, by rw [hw'], ?_⟩
        intro p hp
        rcases List.mem_cons.1 hp with rfl | hp2
        · decide
        · obtain ⟨f, rfl⟩ := hfs p hp2
          cases f <;> decide
    · simp [M.bind, hω] at h
      exact ⟨[], by simp [← h.2], by simp⟩
  · intro fuel w hd
    refine ⟨_, runScript_ok fuel w, ?_⟩
    simp [hd, scriptPaths]
  · intro p hp
    simp [scriptPaths, driverOrder, fnPath] at hp
    rcases hp with rfl | rfl | rfl | rfl | rfl | rfl | rfl | rfl
    · exact Or.inl rfl
    · exact Or.inr ⟨"ECG_Arrhythmia.mlmodel", rfl⟩
    · exact Or.inr ⟨"Troponin_Detection.mlmodel", rfl⟩
    · exact Or.inr ⟨"BP_Estimation.mlmodel", rfl⟩
    · exact Or.inr ⟨"Fall_Detection.mlmodel", rfl⟩
    · exact Or.inr ⟨"Activity_Recognition.mlmodel", rfl⟩
    · exact Or.inr ⟨"Signal_Quality.mlmodel", rfl⟩
    · exact Or.inr ⟨"Glucose_Prediction.mlmodel", rfl⟩

/-- Witness for C4: a successful run from the empty filesystem creates
exactly the directory and the seven model files. -/
theorem claim_C4_witness :
    (∃ w', runScript okOracle 2 w0 = (Except.ok (), w') ∧
       w'.fs = w0.fs ++ scriptPaths) ∧
    ("CoreMLModels" = "CoreMLModels" ∨
       ∃ s, "CoreMLModels" = "CoreMLModels/" ++ s) :=
  ⟨claim_C4.2.1 2 w0 (by decide),
   claim_C4.2.2 "CoreMLModels" (by decide)⟩

/-- C5: the seven functions share no state: each produces the same model,
file and events from any starting world, and calling them in any order
produces the same set of files and all seven save events. -/
theorem claim_C5 :
    (∀ (f : FnName) (w : World),
        runFn f okOracle w =
          (Except.ok (fnModel f),
           { fs := w.fs ++ [fnPath f], trace := w.trace ++ fnEvents f })) ∧
    (∀ l : List FnName, l.Perm driverOrder → ∀ w : World,
        ∃ w', runFns okOracle l w = (Except.ok (), w') ∧
          w'.fs.Perm (w.fs ++ driverOrder.map fnPath) ∧
          ∀ f ∈ l, Event.save (fnModel f) (fnPath f) ∈ w'.trace) := by
  constructor
  · exact runFn_ok
  · intro l hperm w
    refine ⟨_, runFns_ok l w, ?_, ?_⟩
    · exact List.Perm.append_left w.fs (hperm.map fnPath)
    · intro f hf
      have h1 : Event.save (fnModel f) (fnPath f) ∈ fnEvents f := by
        simp [fnEvents]
      have h2 : fnEvents f ∈ l.map fnEvents := List.mem_map_of_mem fnEvents hf
      have h3 : Event.save (fnModel f) (fnPath f) ∈ (l.map fnEvents).flatten :=
        List.mem_flatten.2 ⟨fnEvents f, h2, h1⟩
      simp [h3]

/-- Witness for C5: running the seven functions in reverse order. -/
theorem claim_C5_witness :
    ∃ w', runFns okOracle driverOrder.reverse w0 = (Except.ok (), w') ∧
      w'.fs.Perm (w0.fs ++ driverOrder.map fnPath) ∧
      ∀ f ∈ driverOrder.reverse,
        Event.save (fnModel f) (fnPath f) ∈ w'.trace :=
  claim_C5.2 driverOrder.reverse (List.reverse_perm driverOrder) w0

/-- C6: the script contains no loops: the driver is loop-free, its result
never depends on the interpreter's loop fuel, fuel exhaustion is impossible,
and when every external call returns successfully the run terminates in the
success state. -/
theorem claim_C6 :
    (Stmt.hasLoop (block mainProg) = false) ∧
    (∀ s ∈ mainProg, s.hasLoop = false) ∧
    (∀ (ω : Oracle) (fuel fuel2 : Nat) (w : World),
        runScript ω fuel w = runScript ω fuel2 w) ∧
    (∀ (ω : Oracle) (fuel : Nat) (w : World),
        (runScript ω fuel w).1 ≠ Except.error Err.outOfFuel) ∧
    (∀ (fuel : Nat) (w : World),
        ∃ w', runScript okOracle fuel w = (Except.ok (), w')) := by
  refine ⟨by decide, by decide, runScript_fuel_inv, ?_, ?_⟩
  · intro ω fuel w
    unfold runScript importModule osMakedirs
    by_cases hω : ω (Event.makedirs "CoreMLModels" true)
    · by_cases hd : "CoreMLModels" ∈ w.fs
      · simp [M.bind, hω, hd, World.record]
        exact exec_no_fuel_err (block mainProg) (by decide) ω fuel _
      · simp [M.bind, hω, hd]
        exact exec_no_fuel_err (block mainProg) (by decide) ω fuel _
    · simp [M.bind, hω]
  · intro fuel w
    exact ⟨_, runScript_ok fuel w⟩

/-- Witness for C6 at a concrete statement and a concrete successful run. -/
theorem claim_C6_witness :
    (Stmt.callModel FnName.arrhythmia).hasLoop = false ∧
    (∃ w', runScript okOracle 3 w0 = (Except.ok (), w')) :=
  ⟨claim_C6.2.1 (Stmt.callModel FnName.arrhythmia) (by decide),
   claim_C6.2.2.2.2 3 w0⟩

/-- C7: every successful run of one of the seven functions performs exactly
one save through the conversion library's save operation — of the returned
model, at the function's path — and adds exactly one file, whose name ends
in `.mlmodel`. -/
theorem claim_C7 (f : FnName) (ω : Oracle) (w : World) (m : MLModel) (w' : World)
    (h : runFn f ω w = (Except.ok m, w')) :
    w'.trace.filter Event.isSave =
      (w.trace.filter Event.isSave) ++ [Event.save m (fnPath f)] ∧
    ∃ p, w'.fs = w.fs ++ [p] ∧ ∃ s, p = s ++ ".mlmodel" := by
  rcases runFn_cases f ω w with hc | hc | hc | hc | hc
  · have heq := hc.2.2.2.2
    rw [h] at heq
    injection heq with h1 h2
    injection h1 with hm
    subst hm
    subst h2
    constructor
    · simp [fnEvents, List.filter_append, Event.isSave]
    · refine ⟨fnPath f, rfl, ?_⟩
      cases f
      · exact ⟨"CoreMLModels/ECG_Arrhythmia", by decide⟩
      · exact ⟨"CoreMLModels/Troponin_Detection", by decide⟩
      · exact ⟨"CoreMLModels/BP_Estimation", by decide⟩
      · exact ⟨"CoreMLModels/Fall_Detection", by decide⟩
      · exact ⟨"CoreMLModels/Activity_Recognition", by decide⟩
      · exact ⟨"CoreMLModels/Signal_Quality", by decide⟩
      · exact ⟨"CoreMLModels/Glucose_Prediction", by decide⟩
  · have heq := hc.2
    rw [h] at heq; simp at heq
  · have heq := hc.2.2
    rw [h] at heq; simp at heq
  · have heq := hc.2.2.2
    rw [h] at heq; simp at heq
  · have heq := hc.2.2.2.2
    rw [h] at heq; simp at heq

/-- Witness for C7 at the troponin function under a fully successful run. -/
theorem claim_C7_witness :
    ({ fs := w0.fs ++ [fnPath FnName.troponin],
       trace := w0.trace ++ fnEvents FnName.troponin } : World).trace.filter
        Event.isSave =
      (w0.trace.filter Event.isSave) ++
        [Event.save (fnModel FnName.troponin) (fnPath FnName.troponin)] ∧
    ∃ p, ({ fs := w0.fs ++ [fnPath FnName.troponin],
            trace := w0.trace ++ fnEvents FnName.troponin } : World).fs =
        w0.fs ++ [p] ∧ ∃ s, p = s ++ ".mlmodel" :=
  claim_C7 FnName.troponin okOracle w0 (fnModel FnName.troponin) _
    (runFn_ok FnName.troponin w0)

/-- C8: every converted model is deployed identically: the conversion runs
with minimum deployment target iOS 15 and compute units ALL, and the model
is saved with author `LifeLens Medical AI` and version `1.0.0`. -/
theorem claim_C8 (f : FnName) (ω : Oracle) (w : World) (m : MLModel) (w' : World)
    (h : runFn f ω w = (Except.ok m, w')) :
    m.cfg.minimum_deployment_target = DeploymentTarget.iOS15 ∧
    m.cfg.compute_units = ComputeUnit.ALL ∧
    m.author = some "LifeLens Medical AI" ∧
    m.version = some "1.0.0" ∧
    Event.convert { layers := fnLayers f, compiled := some ("adam", fnLoss f) }
      m.cfg ∈ w'.trace ∧
    Event.save m (fnPath f) ∈ w'.trace := by
  rcases runFn_cases f ω w with hc | hc | hc | hc | hc
  · have heq := hc.2.2.2.2
    rw [h] at heq
    injection heq with h1 h2
    injection h1 with hm
    subst hm
    subst h2
    refine ⟨?_, ?_, rfl, rfl, ?_, ?_⟩
    · cases f <;> rfl
    · cases f <;> rfl
    · simp [fnEvents, fnCompiled, fnModel]
    · simp [fnEvents]
  · have heq := hc.2
    rw [h] at heq; simp at heq
  · have heq := hc.2.2
    rw [h] at heq; simp at heq
  · have heq := hc.2.2.2
    rw [h] at heq; simp at heq
  · have heq := hc.2.2.2.2
    rw [h] at heq; simp at heq

/-- Witness for C8 at the blood-pressure function under a successful run. -/
theorem claim_C8_witness :
    (fnModel FnName.bloodPressure).cfg.minimum_deployment_target =
      DeploymentTarget.iOS15 ∧
    (fnModel FnName.bloodPressure).cfg.compute_units = ComputeUnit.ALL ∧
    (fnModel FnName.bloodPressure).author = some "LifeLens Medical AI" ∧
    (fnModel FnName.bloodPressure).version = some "1.0.0" ∧
    Event.convert
        { layers := fnLayers FnName.bloodPressure,
          compiled := some ("adam", fnLoss FnName.bloodPressure) }
        (fnModel FnName.bloodPressure).cfg ∈
      ({ fs := w0.fs ++ [fnPath FnName.bloodPressure],
         trace := w0.trace ++ fnEvents FnName.bloodPressure } : World).trace ∧
    Event.save (fnModel FnName.bloodPressure) (fnPath FnName.bloodPressure) ∈
      ({ fs := w0.fs ++ [fnPath FnName.bloodPressure],
         trace := w0.trace ++ fnEvents FnName.bloodPressure } : World).trace :=
  claim_C8 FnName.bloodPressure okOracle w0 (fnModel FnName.bloodPressure) _
    (runFn_ok FnName.bloodPressure w0)

/-- C9: the output directory is created at module import with `exist_ok`
set, so importing or running the script when `CoreMLModels` already exists
raises no error and leaves the filesystem entry in place. -/
theorem claim_C9 :
    (∀ w : World, "CoreMLModels" ∈ w.fs →
        importModule okOracle w =
          (Except.ok (),
           { w with trace := w.trace ++ [Event.makedirs "CoreMLModels" true] })) ∧
    (∀ w : World, "CoreMLModels" ∉ w.fs →
        importModule okOracle w =
          (Except.ok (),
           { fs := w.fs ++ ["CoreMLModels"],
             trace := w.trace ++ [Event.makedirs "CoreMLModels" true] })) ∧
    (∀ (fuel : Nat) (w : World), "CoreMLModels" ∈ w.fs →
        ∃ w', runScript okOracle fuel w = (Except.ok (), w') ∧
          w'.fs = w.fs ++ driverOrder.map fnPath) := by
  refine ⟨?_, ?_, ?_⟩
  · intro w hw
    unfold importModule osMakedirs
    simp [okOracle, hw, World.record]
  · intro w hw
    unfold importModule osMakedirs
    simp [okOracle, hw]
  · intro fuel w hw
    refine ⟨_, runScript_ok fuel w, ?_⟩
    simp [hw]

/-- Witness for C9 with the directory already present. -/
theorem claim_C9_witness :
    importModule okOracle { fs := ["CoreMLModels"], trace := [] } =
      (Except.ok (),
       { fs := ["CoreMLModels"],
         trace := [Event.makedirs "CoreMLModels" true] }) ∧
    (∃ w', runScript okOracle 1 { fs := ["CoreMLModels"], trace := [] } =
        (Except.ok (), w') ∧
      w'.fs = ["CoreMLModels"] ++ driverOrder.map fnPath) :=
  ⟨claim_C9.1 { fs := ["CoreMLModels"], trace := [] } (by decide),
   claim_C9.2.2 1 { fs := ["CoreMLModels"], trace := [] } (by decide)⟩

/-- C10: the success summary is printed only after all seven functions have
returned: a successful run prints it after the seven save events and before
no further save, and a run in which anything raises never prints it. -/
theorem claim_C10 :
    (∀ (fuel : Nat) (w : World),
        ∃ w', runScript okOracle fuel w = (Except.ok (), w') ∧
          w'.trace = w.trace ++ scriptEvents) ∧
    (scriptEvents =
      preSummaryEvents ++ Event.print summaryMsg :: postSummaryEvents) ∧
    (∀ f : FnName, Event.save (fnModel f) (fnPath f) ∈ preSummaryEvents) ∧
    (∀ e ∈ postSummaryEvents, Event.isSave e = false) ∧
    (∀ (ω : Oracle) (fuel : Nat) (w : World) (ε : Err) (w' : World),
        runScript ω fuel w = (Except.error ε, w') →
        ∃ δ, w'.trace = w.trace ++ δ ∧ Event.print summaryMsg ∉ δ) := by
  refine ⟨?_, rfl, ?_, by decide, runScript_err_no_summary⟩
  · intro fuel w
    exact ⟨_, runScript_ok fuel w, rfl⟩
  · intro f
    cases f <;> simp [preSummaryEvents, fnEvents]

/-- Witness for C10: a failing run (arrhythmia build raises) whose final
trace has no summary print, plus a save event before the summary. -/
theorem claim_C10_witness :
    (∃ δ, ({ fs := ["CoreMLModels"],
             trace := [Event.makedirs "CoreMLModels" true,
               Event.print "Creating Core ML models for LifeLens...",
               Event.print eqLine] } : World).trace = w0.trace ++ δ ∧
       Event.print summaryMsg ∉ δ) ∧
    Event.print "\nNext steps:" ∈ postSummaryEvents ∧
    Event.isSave (Event.print "\nNext steps:") = false :=
  ⟨claim_C10.2.2.2.2 (failOnly (Event.build arrhythmiaLayers)) 0 w0
     (Err.extFail (Event.build arrhythmiaLayers)) _ (by decide),
   by decide,
   claim_C10.2.2.2.1 (Event.print "\nNext steps:") (by decide)⟩

end LifeLensCoreML
